import Mathlib

/-!
Verification development for the browser automation session layer of the
Parser_2gis repository.  The Lean definitions below are shallow embeddings of
the Python source files under src/parser_2gis (common.py, chrome/remote.py,
chrome/browser.py, chrome/options.py).  Python exceptions are modelled as
explicit error values of type PyErr, stateful methods as explicit state
passing, and the wall clock as a discrete counter advanced by the fixed
500 ms sleeps of the retry loops.
-/

/-- Python exception outcomes that occur in the embedded layer.
typeError models the builtin TypeError; attributeError models the builtin
AttributeError; timeoutError models TimeoutError; chromeExc models the
repository error class ChromeException; runtimeExc models
pychrome.RuntimeException; userAbortExc models pychrome.UserAbortException. -/
inductive PyErr where
  | typeError : PyErr
  | attributeError : String → PyErr
  | timeoutError : String → PyErr
  | chromeExc : String → PyErr
  | runtimeExc : String → PyErr
  | userAbortExc : String → PyErr
  deriving DecidableEq, Repr

/-! ## common.py: wait_until_finished

The decorator repeatedly calls the wrapped function; every raised exception is
caught and followed by a 0.5 s sleep, and the loop condition compares the
elapsed time against the timeout.  We model the wrapped function as a map from
the attempt index to an Except value, time in whole seconds, so a timeout of
T seconds admits exactly the attempt indices k with 0.5 * k < T, that is
2 * T attempts.  A timeout of None (Option.none) makes the very first loop
condition compare a float against None, which raises TypeError before the
wrapped function is ever invoked. -/

/-- The attempt loop of wait_until_finished: try the operation, and on an
exception sleep 0.5 s and move to the next attempt, until the attempt budget
is exhausted. -/
def wufLoop (op : Nat → Except ε α) : Nat → Nat → Option α
  | _, 0 => none
  | k, fuel + 1 =>
    match op k with
    | .ok a => some a
    | .error _ => wufLoop op (k + 1) fuel

/-- Number of attempt indices k with 0.5 * k < T for a timeout of T whole
seconds. -/
def wufAttempts (timeoutSec : Nat) : Nat := 2 * timeoutSec

/-- The TimeoutError message raised on expiry, naming the wrapped function. -/
def timeoutMessage (fname : String) (timeoutSec : Nat) : String :=
  "Function " ++ fname ++ " did not complete within " ++ toString timeoutSec ++ " seconds."

/-- Embedding of common.wait_until_finished applied to a no-argument
operation.  The result is .ok (some a) when some attempt returns a, .ok none
when the timeout elapses with throw_exception set to false, the TimeoutError
when it elapses with the flag set, and TypeError when the timeout is None. -/
def wait_until_finished (timeoutSec : Option Nat) (throw_exception : Bool)
    (fname : String) (op : Nat → Except ε α) : Except PyErr (Option α) :=
  match timeoutSec with
  | none => .error .typeError
  | some T =>
    match wufLoop op 0 (wufAttempts T) with
    | some a => .ok (some a)
    | none =>
      if throw_exception then .error (.timeoutError (timeoutMessage fname T))
      else .ok none

/-! ## chrome/remote.py: get_responses

get_responses is decorated with wait_until_finished at timeout None and
throw_exception false; its body reads the collected responses out of the
request map under the lock. -/

/-- A network exchange: the request id and the request url. -/
structure Exchange where
  requestId : String
  url : String
  deriving DecidableEq, Repr

/-- Embedding of ChromeRemote.get_responses: the request map is modelled as
the list of the optional response fields of its entries; the body collects the
present ones.  The decoration with timeout None and throw_exception false is
applied around it. -/
def get_responses (requests : List (Option Exchange)) : Except PyErr (Option (List Exchange)) :=
  wait_until_finished none false "get_responses"
    (fun _ => (Except.ok (requests.filterMap id) : Except PyErr (List Exchange)))

/-! Helper lemmas for the retry loop. -/

lemma wufLoop_all_error (op : Nat → Except ε α) :
    ∀ (fuel k : Nat), (∀ i, k ≤ i → i < k + fuel → ∃ e, op i = Except.error e) →
    wufLoop op k fuel = none := by
  intro fuel
  induction fuel with
  | zero => intro k _; rfl
  | succ n ih =>
    intro k h
    obtain ⟨e, he⟩ := h k (le_refl k) (by omega)
    simp only [wufLoop, he]
    exact ih (k + 1) (fun i hi hlt => h i (by omega) (by omega))

lemma wufLoop_first_ok (op : Nat → Except ε α) (a : α) :
    ∀ (fuel k j : Nat), k ≤ j → j < k + fuel → op j = Except.ok a →
    (∀ i, k ≤ i → i < j → ∃ e, op i = Except.error e) →
    wufLoop op k fuel = some a := by
  intro fuel
  induction fuel with
  | zero =>
    intro k j hkj hlt _ _
    omega
  | succ n ih =>
    intro k j hkj hlt hok hfail
    rcases Nat.eq_or_lt_of_le hkj with heq | hklt
    · subst heq
      simp [wufLoop, hok]
    · obtain ⟨e, he⟩ := hfail k (le_refl k) hklt
      simp only [wufLoop, he]
      exact ih (k + 1) j hklt (by omega) hok
        (fun i hi hij => hfail i (by omega) hij)

/-- Claim C2: for every wrapped no-argument operation, wait_until_finished
repeatedly invokes the operation with a fixed 500 ms backoff until it returns
successfully or the timeout elapses; on elapse it raises a TimeoutError naming
the operation when the raise-on-timeout flag is set and returns the None
sentinel otherwise, and in no case does it propagate the underlying
per-attempt exception to the caller. -/
theorem wait_until_finished_contract {ε α : Type} (T : Nat) (fname : String)
    (op : Nat → Except ε α) :
    ((∀ i, i < wufAttempts T → ∃ e, op i = Except.error e) →
      wait_until_finished (some T) true fname op
        = Except.error (PyErr.timeoutError (timeoutMessage fname T)) ∧
      wait_until_finished (some T) false fname op = Except.ok none) ∧
    (∀ j a, j < wufAttempts T → op j = Except.ok a →
      (∀ i, i < j → ∃ e, op i = Except.error e) →
      ∀ thr, wait_until_finished (some T) thr fname op = Except.ok (some a)) ∧
    (∀ thr, (∃ v, wait_until_finished (some T) thr fname op = Except.ok v) ∨
      wait_until_finished (some T) thr fname op
        = Except.error (PyErr.timeoutError (timeoutMessage fname T))) := by
  refine ⟨?_, ?_, ?_⟩
  · intro hfail
    have hnone : wufLoop op 0 (wufAttempts T) = none :=
      wufLoop_all_error op (wufAttempts T) 0 (fun i _ hlt => hfail i (by omega))
    constructor
    · simp [wait_until_finished, hnone]
    · simp [wait_until_finished, hnone]
  · intro j a hj hok hfail thr
    have hsome : wufLoop op 0 (wufAttempts T) = some a :=
      wufLoop_first_ok op a (wufAttempts T) 0 j (Nat.zero_le j) (by omega) hok
        (fun i _ hij => hfail i hij)
    simp [wait_until_finished, hsome]
  · intro thr
    cases hres : wufLoop op 0 (wufAttempts T) with
    | some a =>
      left
      exact ⟨some a, by simp [wait_until_finished, hres]⟩
    | none =>
      cases thr with
      | true =>
        right
        simp [wait_until_finished, hres]
      | false =>
        left
        exact ⟨none, by simp [wait_until_finished, hres]⟩

/-- Witness for claim C2 at concrete operations: one operation that fails on
every attempt, one that fails on attempt 0 and succeeds on attempt 1, and a
timeout of 1 second (2 attempts). -/
def wufOpAllFail : Nat → Except String Nat := fun _ => Except.error "boom"

def wufOpLate : Nat → Except String Nat :=
  fun i => if i = 1 then Except.ok 7 else Except.error "boom"

theorem wait_until_finished_contract_witness :
    wait_until_finished (some 1) true "poll" wufOpAllFail
      = Except.error (PyErr.timeoutError (timeoutMessage "poll" 1)) ∧
    wait_until_finished (some 1) false "poll" wufOpAllFail = Except.ok none ∧
    wait_until_finished (some 1) true "poll" wufOpLate = Except.ok (some 7) := by
  have h1 := (wait_until_finished_contract 1 "poll" wufOpAllFail).1
    (fun i _ => ⟨"boom", rfl⟩)
  have h2 := (wait_until_finished_contract 1 "poll" wufOpLate).2.1 1 7
    (by decide) rfl
    (fun i hi => ⟨"boom", by
      have : i = 0 := by omega
      subst this
      rfl⟩) true
  exact ⟨h1.1, h1.2, h2⟩

/-- Claim C9: every call to get_responses fails with TypeError before the
function body ever runs: the decorator is applied with timeout None, and the
loop condition compares the elapsed time against None; in particular the
operation can never return the collected response list. -/
theorem get_responses_always_type_error (requests : List (Option Exchange)) :
    get_responses requests = Except.error PyErr.typeError ∧
    ∀ v, get_responses requests ≠ Except.ok v := by
  refine ⟨rfl, ?_⟩
  intro v h
  rw [show get_responses requests = Except.error PyErr.typeError from rfl] at h
  exact Except.noConfusion h

/-! ## chrome/remote.py: _init_tab_monitor

The monitor is a background loop.  Each iteration first checks the stopped
flag of the tab, then either finds the dev url unset (and exits without
touching the flags), or issues the tab listing request.  A listing that still
holds the owned tab id lets the loop continue; a missing id, a connection
failure, a request timeout or any other exception makes the loop set the
closure variable tab_detached and the stopped flag of the tab and exit.  We
model one iteration by the observation it makes. -/

/-- What one iteration of monitor_tab observes. -/
inductive MonObs where
  | tabListed : MonObs
  | tabMissing : MonObs
  | connFailure : MonObs
  | reqTimeout : MonObs
  | otherExc : MonObs
  | devUrlGone : MonObs
  deriving DecidableEq, Repr

/-- The two flags shared between the monitor and the wrapped send path: the
closure variable tab_detached and the stopped flag of the tab. -/
structure TabFlags where
  tab_detached : Bool
  stopped : Bool
  deriving DecidableEq, Repr

/-- Initial flags: freshly monitored tab, not detached, not stopped. -/
def initFlags : TabFlags := { tab_detached := false, stopped := false }

/-- One iteration of the monitor loop on the pair of the shared flags and the
running bit (false once the loop has exited). -/
def monitorStep (st : TabFlags × Bool) (o : MonObs) : TabFlags × Bool :=
  if st.2 then
    if st.1.stopped then (st.1, false)
    else
      match o with
      | .tabListed => (st.1, true)
      | .devUrlGone => (st.1, false)
      | _ => ({ tab_detached := true, stopped := true }, false)
  else st

/-- The monitor loop over a sequence of observations. -/
def monitorRun (st : TabFlags × Bool) (obs : List MonObs) : TabFlags × Bool :=
  obs.foldl monitorStep st

/-- Transport outcome of one call through the original send function. -/
inductive TransportResult (α ε : Type) where
  | ok : α → TransportResult α ε
  | userAbort : TransportResult α ε
  | exc : ε → TransportResult α ε
  deriving DecidableEq, Repr

/-- Outcome of one call through the wrapped send path. -/
inductive SendOutcome (α ε : Type) where
  | value : α → SendOutcome α ε
  | runtimeExc : String → SendOutcome α ε
  | userAbortExc : String → SendOutcome α ε
  | raw : ε → SendOutcome α ε
  deriving DecidableEq, Repr

/-- Embedding of wrapped_send from _init_tab_monitor: a success passes
through; a UserAbortException or any other exception is reclassified as
RuntimeException with the fixed message once tab_detached holds, and is
re-raised unchanged (resp. as a fresh UserAbortException) otherwise. -/
def wrapped_send (tab_detached : Bool) (r : TransportResult α ε) : SendOutcome α ε :=
  match r with
  | .ok v => .value v
  | .userAbort =>
    if tab_detached then .runtimeExc "Tab has been stopped"
    else .userAbortExc "Operation aborted by user or tab issue."
  | .exc e =>
    if tab_detached then .runtimeExc "Tab has been stopped"
    else .raw e

/-- The detachment triggers named by the claim. -/
def isDetachTrigger (o : MonObs) : Prop :=
  o = MonObs.tabMissing ∨ o = MonObs.connFailure ∨ o = MonObs.reqTimeout

lemma monitorRun_not_running (s : TabFlags) (obs : List MonObs) :
    monitorRun (s, false) obs = (s, false) := by
  induction obs with
  | nil => rfl
  | cons o os ih => simpa [monitorRun, monitorStep] using ih

lemma monitorRun_running_not_stopped (obs : List MonObs) :
    ∀ st : TabFlags × Bool, (st.2 = true → st.1.stopped = false) →
    (monitorRun st obs).2 = true → (monitorRun st obs).1.stopped = false := by
  induction obs with
  | nil => intro st h hr; exact h hr
  | cons o os ih =>
    intro st h hr
    rcases st with ⟨s, b⟩
    cases b with
    | false =>
      rw [monitorRun_not_running] at hr
      exact absurd hr (by simp)
    | true =>
      have hs : s.stopped = false := h rfl
      simp only [monitorRun, List.foldl_cons] at hr ⊢
      refine ih (monitorStep (s, true) o) ?_ hr
      intro hrun
      simp only [monitorStep, hs] at hrun ⊢
      cases o <;> simp_all

/-- Claim C1: once the liveness monitor observes the owned tab id missing
from the tab listing, a connection failure or a request timeout, it sets the
detachment flag and the stopped flag of the tab and exits, and from that
point every call through the wrapped send path that fails at the transport
fails with RuntimeException "Tab has been stopped" rather than the raw
transport error; neither flag is ever cleared by any later observation, so
the state is terminal. -/
theorem monitor_detach_terminal (pre post : List MonObs) (o : MonObs)
    (htrig : isDetachTrigger o)
    (hrun : (monitorRun (initFlags, true) pre).2 = true) :
    (monitorRun (initFlags, true) (pre ++ o :: post)).1.tab_detached = true ∧
    (monitorRun (initFlags, true) (pre ++ o :: post)).1.stopped = true ∧
    (monitorRun (initFlags, true) (pre ++ o :: post)).2 = false ∧
    ∀ (α ε : Type) (r : TransportResult α ε), (∀ v, r ≠ TransportResult.ok v) →
      wrapped_send (monitorRun (initFlags, true) (pre ++ o :: post)).1.tab_detached r
        = SendOutcome.runtimeExc "Tab has been stopped" := by
  have hsplit : monitorRun (initFlags, true) (pre ++ o :: post)
      = monitorRun (monitorStep (monitorRun (initFlags, true) pre) o) post := by
    simp [monitorRun, List.foldl_append]
  have hnstop : (monitorRun (initFlags, true) pre).1.stopped = false :=
    monitorRun_running_not_stopped pre (initFlags, true) (fun _ => rfl) hrun
  have hstep : monitorStep (monitorRun (initFlags, true) pre) o
      = ({ tab_detached := true, stopped := true }, false) := by
    rcases hpre : monitorRun (initFlags, true) pre with ⟨s, b⟩
    rw [hpre] at hrun hnstop
    simp only at hrun hnstop
    subst hrun
    rcases htrig with h | h | h <;> subst h <;> simp [monitorStep, hnstop]
  have hfinal : monitorRun (initFlags, true) (pre ++ o :: post)
      = ({ tab_detached := true, stopped := true }, false) := by
    rw [hsplit, hstep, monitorRun_not_running]
  refine ⟨by rw [hfinal], by rw [hfinal], by rw [hfinal], ?_⟩
  intro α ε r hnok
  rw [hfinal]
  cases r with
  | ok v => exact absurd rfl (hnok v)
  | userAbort => rfl
  | exc e => rfl

/-- Witness for claim C1: a healthy listing, then the owned tab id goes
missing, then further iterations; a transport failure afterwards surfaces as
RuntimeException with the fixed message. -/
theorem monitor_detach_terminal_witness :
    (monitorRun (initFlags, true)
        ([MonObs.tabListed] ++ MonObs.tabMissing :: [MonObs.tabListed, MonObs.tabListed])).1.tab_detached = true ∧
    (monitorRun (initFlags, true)
        ([MonObs.tabListed] ++ MonObs.tabMissing :: [MonObs.tabListed, MonObs.tabListed])).1.stopped = true ∧
    wrapped_send (monitorRun (initFlags, true)
        ([MonObs.tabListed] ++ MonObs.tabMissing :: [MonObs.tabListed, MonObs.tabListed])).1.tab_detached
        (TransportResult.exc "socket is already closed" : TransportResult Nat String)
      = SendOutcome.runtimeExc "Tab has been stopped" := by
  have h := monitor_detach_terminal [MonObs.tabListed] [MonObs.tabListed, MonObs.tabListed]
    MonObs.tabMissing (Or.inl rfl) (by decide)
  refine ⟨h.1, h.2.1, ?_⟩
  exact h.2.2.2 Nat String (TransportResult.exc "socket is already closed")
    (fun v hv => TransportResult.noConfusion hv)

/-! ## chrome/remote.py: the Response Correlation Store

The constructor builds one FIFO queue per response pattern and an initially
empty flat request map; wait_response pops non-blocking from the queue of a
pattern; clear_requests empties the flat map and drains every queue.  The
network event handler that records exchanges is not part of the provided
sources, so it is modelled from the spec below. -/

/-- The store: the flat request log in insertion order and one FIFO queue per
registered pattern. -/
structure CorrStore where
  requests : List Exchange
  queues : List (String × List Exchange)
  deriving DecidableEq, Repr

/-- The constructor of ChromeRemote restricted to the store: an empty flat log
and one empty queue per response pattern. -/
def initStore (patterns : List String) : CorrStore :=
  { requests := [], queues := patterns.map (fun p => (p, [])) }

/-- Modelled from the spec: the network event handler (the record operation of
the Response Correlation Store) is not among the provided sources; per the
spec it appends the exchange to the flat log and pushes it into the queue of
every subscription whose pattern matches the exchange url.  The url matching
predicate urlMatch is kept abstract. -/
def record (urlMatch : String → String → Bool) (e : Exchange) (s : CorrStore) : CorrStore :=
  { requests := s.requests ++ [e],
    queues := s.queues.map (fun pq => if urlMatch pq.1 e.url then (pq.1, pq.2 ++ [e]) else pq) }

/-- Non-blocking pop of the queue of a pattern: a missing key (KeyError) or an
empty queue (queue.Empty) yields none. -/
def popQueue (p : String) (qs : List (String × List Exchange)) :
    Option Exchange × List (String × List Exchange) :=
  match qs.find? (fun pq => pq.1 == p) with
  | none => (none, qs)
  | some pq =>
    match pq.2 with
    | [] => (none, qs)
    | e :: rest => (some e, qs.map (fun x => if x.1 == p then (p, rest) else x))

/-- The body of ChromeRemote.wait_response: with no tab or a stopped tab the
result is none, else a non-blocking pop from the queue of the pattern. -/
def wait_response_body (tab_present stopped : Bool) (p : String) (s : CorrStore) :
    Option Exchange × CorrStore :=
  if tab_present = false then (none, s)
  else if stopped then (none, s)
  else
    let r := popQueue p s.queues
    (r.1, { s with queues := r.2 })

/-- Embedding of ChromeRemote.clear_requests: clears the flat log and drains
every per-pattern queue. -/
def clear_requests (s : CorrStore) : CorrStore :=
  { requests := [], queues := s.queues.map (fun pq => (pq.1, [])) }

/-- Repeated wait_response calls against a live tab, collecting the returned
exchanges in order. -/
def takeSeq (p : String) : CorrStore → Nat → List Exchange
  | _, 0 => []
  | s, n + 1 =>
    match wait_response_body true false p s with
    | (some e, s2) => e :: takeSeq p s2 n
    | (none, _) => []

lemma record_foldl_two (urlMatch : String → String → Bool) (P1 P2 : String)
    (rs : List Exchange)
    (hm : ∀ e ∈ rs, urlMatch P1 e.url = true ∧ urlMatch P2 e.url = false) :
    ∀ (a q1 q2 : List Exchange),
    rs.foldl (fun s e => record urlMatch e s)
        { requests := a, queues := [(P1, q1), (P2, q2)] }
      = { requests := a ++ rs, queues := [(P1, q1 ++ rs), (P2, q2)] } := by
  induction rs with
  | nil => intro a q1 q2; simp
  | cons e es ih =>
    intro a q1 q2
    have he := hm e (by simp)
    have hes : ∀ x ∈ es, urlMatch P1 x.url = true ∧ urlMatch P2 x.url = false :=
      fun x hx => hm x (by simp [hx])
    simp only [List.foldl_cons]
    have hrec : record urlMatch e { requests := a, queues := [(P1, q1), (P2, q2)] }
        = { requests := a ++ [e], queues := [(P1, q1 ++ [e]), (P2, q2)] } := by
      simp [record, he.1, he.2]
    rw [hrec, ih hes (a ++ [e]) (q1 ++ [e]) q2]
    simp

lemma takeSeq_drains (P1 P2 : String) (hne : P1 ≠ P2) :
    ∀ (q1 : List Exchange) (a q2 : List Exchange),
    takeSeq P1 { requests := a, queues := [(P1, q1), (P2, q2)] } q1.length = q1 := by
  intro q1
  induction q1 with
  | nil => intro a q2; rfl
  | cons e rest ih =>
    intro a q2
    have hP1 : (P1 == P1) = true := by simp
    have hP2 : (P2 == P1) = false := beq_eq_false_iff_ne.mpr (Ne.symm hne)
    have hbody : wait_response_body true false P1
        { requests := a, queues := [(P1, e :: rest), (P2, q2)] }
        = (some e, { requests := a, queues := [(P1, rest), (P2, q2)] }) := by
      simp [wait_response_body, popQueue, List.find?, hP1, hP2]
      exact fun h => False.elim (hne h.symm)
    simp only [List.length_cons, takeSeq, hbody]
    exact congrArg (e :: ·) (ih a q2)

/-- Claim C6: after registering the patterns P1 and P2 and recording exchanges
whose urls match only P1, wait_response of P2 returns none while successive
wait_response calls for P1 return the recorded exchanges in insertion order,
and clear_requests empties both the flat log and every per-pattern queue. -/
theorem corr_store_fifo (urlMatch : String → String → Bool) (P1 P2 : String)
    (rs : List Exchange) (hne : P1 ≠ P2)
    (hm : ∀ e ∈ rs, urlMatch P1 e.url = true ∧ urlMatch P2 e.url = false) :
    (wait_response_body true false P2
        (rs.foldl (fun s e => record urlMatch e s) (initStore [P1, P2]))).1 = none ∧
    takeSeq P1 (rs.foldl (fun s e => record urlMatch e s) (initStore [P1, P2]))
        rs.length = rs ∧
    (clear_requests (rs.foldl (fun s e => record urlMatch e s) (initStore [P1, P2]))).requests
        = [] ∧
    ∀ pq ∈ (clear_requests
        (rs.foldl (fun s e => record urlMatch e s) (initStore [P1, P2]))).queues,
      pq.2 = [] := by
  have hinit : initStore [P1, P2]
      = { requests := ([] : List Exchange), queues := [(P1, []), (P2, [])] } := by
    simp [initStore]
  have hst : rs.foldl (fun s e => record urlMatch e s) (initStore [P1, P2])
      = { requests := rs, queues := [(P1, rs), (P2, [])] } := by
    rw [hinit, record_foldl_two urlMatch P1 P2 rs hm [] [] []]
    simp
  have hP1P2 : (P1 == P2) = false := beq_eq_false_iff_ne.mpr hne
  have hP2P2 : (P2 == P2) = true := by simp
  refine ⟨?_, ?_, ?_, ?_⟩
  · rw [hst]
    simp [wait_response_body, popQueue, List.find?, hP1P2, hP2P2]
  · rw [hst]
    exact takeSeq_drains P1 P2 hne rs rs []
  · rw [hst]; rfl
  · rw [hst]
    intro pq hpq
    simp [clear_requests] at hpq
    rcases hpq with h | h <;> simp [h]

/-- Witness for claim C6: the patterns api/items and api/users under equality
matching, two exchanges whose urls match the first pattern only. -/
theorem corr_store_fifo_witness :
    (wait_response_body true false "api/users"
        (([⟨"r1", "api/items"⟩, ⟨"r2", "api/items"⟩] : List Exchange).foldl
          (fun s e => record (fun p u => p == u) e s)
          (initStore ["api/items", "api/users"]))).1 = none ∧
    takeSeq "api/items"
        (([⟨"r1", "api/items"⟩, ⟨"r2", "api/items"⟩] : List Exchange).foldl
          (fun s e => record (fun p u => p == u) e s)
          (initStore ["api/items", "api/users"])) 2
      = ([⟨"r1", "api/items"⟩, ⟨"r2", "api/items"⟩] : List Exchange) := by
  have h := corr_store_fifo (fun p u => p == u) "api/items" "api/users"
    ([⟨"r1", "api/items"⟩, ⟨"r2", "api/items"⟩] : List Exchange) (by decide)
    (by intro e he; fin_cases he <;> exact ⟨by decide, by decide⟩)
  exact ⟨h.1, h.2.1⟩

/-! ## chrome/remote.py: wait_for_selector

With no tab the method returns False at once.  Otherwise it loops while the
elapsed time is below the timeout: each iteration evaluates
self._chrome_remote.execute_script(...), but _chrome_remote is not an
attribute ChromeRemote ever assigns (the constructor assigns only the
attributes listed below), so the lookup raises AttributeError; a
ChromeException would return False, any other exception falls through to the
0.5 s sleep.  After the loop it returns False.  Time is modelled in
milliseconds. -/

/-- The attributes the ChromeRemote constructor assigns on the instance. -/
def chromeRemoteAttrs : List String :=
  ["_chrome_options", "_chrome_browser", "_dev_url", "_chrome_interface",
   "_chrome_tab", "_response_patterns", "_response_queues", "_requests",
   "_requests_lock", "_ping_thread", "_tab_detached"]

/-- Python attribute lookup on a ChromeRemote instance. -/
def chromeRemoteHasAttr (name : String) : Bool := chromeRemoteAttrs.contains name

/-- Outcome of one poll iteration of wait_for_selector. -/
inductive PollResult where
  | found : PollResult
  | notFound : PollResult
  | attrErr : PollResult
  | chromeExc : PollResult
  deriving DecidableEq, Repr

/-- One poll iteration: the attribute lookup of _chrome_remote happens first;
were the attribute present, execute_script would report whether the selector
exists on the page at poll k (the page oracle); since it is absent the
iteration raises AttributeError. -/
def wfsPoll (page : Nat → Bool) (k : Nat) : PollResult :=
  if chromeRemoteHasAttr "_chrome_remote" then
    (if page k then .found else .notFound)
  else .attrErr

/-- Number of poll indices k with 500 * k below a timeout of T milliseconds. -/
def wfsAttempts (timeoutMs : Nat) : Nat := (timeoutMs + 499) / 500

/-- The poll loop of wait_for_selector: a found selector returns true, a
ChromeException returns False, anything else (including the AttributeError)
is swallowed and followed by the 0.5 s sleep.  The second component is the
elapsed time in milliseconds at return. -/
def wfsLoop (page : Nat → Bool) : Nat → Nat → Bool × Nat
  | k, 0 => (false, 500 * k)
  | k, fuel + 1 =>
    match wfsPoll page k with
    | .found => (true, 500 * k)
    | .chromeExc => (false, 500 * k)
    | _ => wfsLoop page (k + 1) fuel

/-- Embedding of ChromeRemote.wait_for_selector. -/
def wait_for_selector (tab_present : Bool) (page : Nat → Bool) (timeoutMs : Nat) :
    Bool × Nat :=
  if tab_present then wfsLoop page 0 (wfsAttempts timeoutMs) else (false, 0)

lemma wfsLoop_attr_error (page : Nat → Bool) :
    ∀ (fuel k : Nat), wfsLoop page k fuel = (false, 500 * (k + fuel)) := by
  intro fuel
  induction fuel with
  | zero => intro k; simp [wfsLoop]
  | succ n ih =>
    intro k
    have hpoll : wfsPoll page k = PollResult.attrErr := by
      simp [wfsPoll, chromeRemoteHasAttr, chromeRemoteAttrs]
    have hstep : wfsLoop page k (n + 1) = wfsLoop page (k + 1) n := by
      rw [wfsLoop, hpoll]
    have harith : k + 1 + n = k + (n + 1) := by omega
    rw [hstep, ih (k + 1), harith]

/-- Claim C7: with a live tab and a selector that never appears on the page,
wait_for_selector polls at a fixed 500 ms interval, returns the boolean false,
and does so after approximately the requested timeout, within one poll
interval; no exception escapes (the result is a plain boolean). -/
theorem wait_for_selector_times_out (page : Nat → Bool) (timeoutMs : Nat)
    (hnever : ∀ k, page k = false) :
    (wait_for_selector true page timeoutMs).1 = false ∧
    timeoutMs ≤ (wait_for_selector true page timeoutMs).2 ∧
    (wait_for_selector true page timeoutMs).2 < timeoutMs + 500 := by
  have hloop : wait_for_selector true page timeoutMs
      = (false, 500 * wfsAttempts timeoutMs) := by
    rw [wait_for_selector]
    simpa using wfsLoop_attr_error page (wfsAttempts timeoutMs) 0
  rw [hloop]
  refine ⟨rfl, ?_, ?_⟩
  · show timeoutMs ≤ 500 * wfsAttempts timeoutMs
    simp only [wfsAttempts]
    omega
  · show 500 * wfsAttempts timeoutMs < timeoutMs + 500
    simp only [wfsAttempts]
    omega

/-- Witness for claim C7: a page oracle on which the selector never appears
and a 1234 ms timeout. -/
theorem wait_for_selector_times_out_witness :
    (wait_for_selector true (fun _ => false) 1234).1 = false ∧
    1234 ≤ (wait_for_selector true (fun _ => false) 1234).2 ∧
    (wait_for_selector true (fun _ => false) 1234).2 < 1234 + 500 :=
  wait_for_selector_times_out (fun _ => false) 1234 (fun _ => rfl)

/-- Claim C10: wait_for_selector can never return true: _chrome_remote is not
among the attributes the ChromeRemote constructor assigns, so every poll
iteration raises AttributeError, which the catch-all handler swallows; the
loop can only exhaust the timeout and return false, and with no tab it
returns false at once. -/
theorem wait_for_selector_never_true :
    chromeRemoteHasAttr "_chrome_remote" = false ∧
    ∀ (tab_present : Bool) (page : Nat → Bool) (timeoutMs : Nat),
      (wait_for_selector tab_present page timeoutMs).1 = false := by
  constructor
  · rfl
  · intro tab_present page timeoutMs
    cases tab_present with
    | false => rfl
    | true =>
      rw [wait_for_selector]
      simp [wfsLoop_attr_error page (wfsAttempts timeoutMs) 0]

/-! ## chrome/options.py: ChromeOptions and to_args

ChromeOptions is a pydantic model; its declared fields are listed in the
class body.  to_args builds the base argument vector, appends --headless when
the headless field is set, and then evaluates self.disable_gpu — a name that
is not among the declared fields, so the pydantic attribute lookup raises
AttributeError.  Attribute lookup is modelled explicitly so that the lookup
failure is visible. -/

/-- The declared fields of the ChromeOptions pydantic model.  Paths are
modelled as strings and the memory limit as a natural number. -/
structure ChromeOptions where
  binary_path : Option String := none
  start_maximized : Bool := false
  headless : Bool := false
  disable_images : Bool := true
  silent_browser : Bool := true
  memory_limit : Nat := 0
  chrome_executable_path : Option String := none
  remote_port : Nat := 9222
  user_data_dir : Option String := none
  proxy_server : Option String := none
  deriving DecidableEq, Repr

/-- Value of a pydantic model attribute. -/
inductive AttrVal where
  | boolV : Bool → AttrVal
  | natV : Nat → AttrVal
  | optStrV : Option String → AttrVal
  deriving DecidableEq, Repr

/-- Python truthiness of an attribute value. -/
def AttrVal.truthy : AttrVal → Bool
  | .boolV b => b
  | .natV n => n != 0
  | .optStrV s => s.isSome

/-- Pydantic attribute lookup on a ChromeOptions instance: a declared field
yields its value, any other name yields none (AttributeError). -/
def ChromeOptions.lookupAttr (o : ChromeOptions) : String → Option AttrVal
  | "binary_path" => some (.optStrV o.binary_path)
  | "start_maximized" => some (.boolV o.start_maximized)
  | "headless" => some (.boolV o.headless)
  | "disable_images" => some (.boolV o.disable_images)
  | "silent_browser" => some (.boolV o.silent_browser)
  | "memory_limit" => some (.natV o.memory_limit)
  | "chrome_executable_path" => some (.optStrV o.chrome_executable_path)
  | "remote_port" => some (.natV o.remote_port)
  | "user_data_dir" => some (.optStrV o.user_data_dir)
  | "proxy_server" => some (.optStrV o.proxy_server)
  | _ => none

/-- Embedding of ChromeOptions.to_args.  The base vector and the headless
flag are built first, then the method evaluates self.disable_gpu; the
continuation after a successful lookup follows the remaining source lines. -/
def to_args (o : ChromeOptions) : Except String (List String) :=
  let args := ["--remote-debugging-port=" ++ toString o.remote_port,
    "--no-first-run", "--no-default-browser-check", "--disable-popup-blocking",
    "--disable-extensions", "--disable-infobars", "--disable-notifications"]
  let args := if o.headless then args ++ ["--headless"] else args
  match o.lookupAttr "disable_gpu" with
  | none => Except.error "AttributeError: ChromeOptions object has no attribute disable_gpu"
  | some v =>
    let args := if v.truthy then args ++ ["--disable-gpu"] else args
    let args := if o.disable_images then args ++ ["--disable-image-loading"] else args
    let args := if o.start_maximized then args ++ ["--start-maximized"] else args
    let args := match o.user_data_dir with
      | some d => args ++ ["--user-data-dir=" ++ d]
      | none => args
    let args := match o.proxy_server with
      | some p => args ++ ["--proxy-server=" ++ p]
      | none => args
    Except.ok args

/-- Claim C8 (code bug): to_args never returns an argument vector.  The
method body reads self.disable_gpu, but disable_gpu is not a declared field
of the ChromeOptions model, so for every options value the call raises
AttributeError instead of returning the flag list the spec describes. -/
theorem to_args_always_attribute_error (o : ChromeOptions) :
    to_args o
      = Except.error "AttributeError: ChromeOptions object has no attribute disable_gpu" ∧
    ChromeOptions.lookupAttr o "disable_gpu" = none := by
  exact ⟨rfl, rfl⟩

/-! ## chrome/browser.py: ChromeBrowser

The constructor discovers an executable (or fails with ChromeException),
leaving remote_port None and no process.  The first statement of start()
(after the already-running guard) builds the command vector by calling
self._chrome_options.to_args() — outside the try of the method — so the
unconditional AttributeError of to_args propagates raw out of start() before
any spawn.  The continuation, were to_args to return, spawns the process,
waits a settle delay, checks for an early exit, sets remote_port from the
options and polls GET /json up to 15 times; on exhaustion it closes and
raises, and the raise is caught by the outer handler which closes again and
wraps the message.  close() is idempotent: it terminates a still-running
process and always clears the handle and the port. -/

/-- Environment of one browser launch: whether discovery finds an executable,
whether the spawn succeeds, whether the process dies during the settle delay,
and the outcome of each GET /json poll. -/
structure BrowserEnv where
  execFound : Bool
  spawnOk : Bool
  exitedEarly : Bool
  poll : Nat → Bool

/-- State of a ChromeBrowser handle.  procAlive is none when no process is
held and some b when a process is held with b recording whether it still
runs; everSpawned and terminatedByClose track, for the no-orphan property,
that a spawn happened and that close terminated a running process. -/
structure BrowserState where
  procAlive : Option Bool
  everSpawned : Bool
  terminatedByClose : Bool
  remote_port : Option Nat
  deriving DecidableEq, Repr

/-- The handle as the constructor leaves it: no process, no port. -/
def initBrowserState : BrowserState :=
  { procAlive := none, everSpawned := false, terminatedByClose := false,
    remote_port := none }

/-- Embedding of ChromeBrowser constructor: an explicit executable path or a
successful discovery yields the fresh handle, else ChromeException. -/
def browserInit (env : BrowserEnv) (chrome_executable_path : Option String) :
    Except PyErr BrowserState :=
  if chrome_executable_path.isSome || env.execFound then Except.ok initBrowserState
  else Except.error (PyErr.chromeExc "Chrome executable not found.")

/-- Embedding of ChromeBrowser.close: with no process it returns at once;
else it terminates the process when still running and always clears the
handle and the port. -/
def browserClose (s : BrowserState) : BrowserState :=
  match s.procAlive with
  | none => s
  | some alive =>
    { procAlive := none, everSpawned := s.everSpawned,
      terminatedByClose := s.terminatedByClose || alive, remote_port := none }

/-- The bounded GET /json retry budget of ChromeBrowser.start. -/
def pollRetries : Nat := 15

/-- Embedding of ChromeBrowser.start.  The already-running guard comes first;
then cmd is built from to_args of the options, outside the try, so the
AttributeError of to_args propagates raw, before any spawn and without any
close.  The remaining branches embed the source continuation that would run
were cmd built. -/
def browserStart (env : BrowserEnv) (o : ChromeOptions) (s : BrowserState) :
    Except PyErr Unit × BrowserState :=
  if s.procAlive.isSome then (Except.ok (), s)
  else
    match to_args o with
    | .error msg => (Except.error (PyErr.attributeError msg), s)
    | .ok _args =>
      if !env.spawnOk then
        (Except.error (PyErr.chromeExc "Chrome executable not found at the configured path."),
         browserClose s)
      else
        let s1 : BrowserState := { s with procAlive := some true, everSpawned := true }
        if env.exitedEarly then
          (Except.error (PyErr.chromeExc
            "Error starting Chrome browser: Chrome process exited immediately after start."),
           browserClose { s1 with procAlive := some false })
        else
          let s2 : BrowserState := { s1 with remote_port := some o.remote_port }
          match (List.range pollRetries).find? (fun i => env.poll i) with
          | some _ => (Except.ok (), s2)
          | none =>
            (Except.error (PyErr.chromeExc
              "Error starting Chrome browser: Failed to connect to Chrome DevTools after 15 retries."),
             browserClose (browserClose s2))

/-- Claim C3 (code bug): for every launch environment and every options
value, ChromeBrowser.start on a fresh handle fails with the AttributeError
raised by to_args at its first statement, before spawning anything: the state
is unchanged (in particular nothing was ever spawned), so the spawn-then-poll
path — whose exhaustion the claim describes as DevToolsUnavailable with the
process terminated — is unreachable in the program. -/
theorem browser_start_attribute_error_before_spawn (env : BrowserEnv)
    (o : ChromeOptions) (s0 : BrowserState)
    (hproc : s0.procAlive = none) :
    (browserStart env o s0).1
      = Except.error (PyErr.attributeError
          "AttributeError: ChromeOptions object has no attribute disable_gpu") ∧
    (browserStart env o s0).2 = s0 ∧
    (browserStart env o s0).2.everSpawned = s0.everSpawned := by
  have hopt : s0.procAlive.isSome = false := by rw [hproc]; rfl
  have hta : to_args o
      = Except.error "AttributeError: ChromeOptions object has no attribute disable_gpu" := rfl
  simp [browserStart, hopt, hta]

/-- Witness for claim C3: a fresh handle, default options, and an environment
in which a spawn would succeed and every poll would fail; the AttributeError
still fires first. -/
theorem browser_start_attribute_error_before_spawn_witness :
    (browserStart ⟨true, true, false, fun _ => false⟩ {} initBrowserState).1
      = Except.error (PyErr.attributeError
          "AttributeError: ChromeOptions object has no attribute disable_gpu") ∧
    (browserStart ⟨true, true, false, fun _ => false⟩ {} initBrowserState).2
      = initBrowserState :=
  ⟨(browser_start_attribute_error_before_spawn ⟨true, true, false, fun _ => false⟩
      {} initBrowserState rfl).1,
   (browser_start_attribute_error_before_spawn ⟨true, true, false, fun _ => false⟩
      {} initBrowserState rfl).2.1⟩

/-! ## chrome/remote.py: ChromeRemote.start

start() returns at once when a browser handle exists.  Else it constructs a
ChromeBrowser handle — without ever calling its start method — and forms the
dev url from the remote_port of the handle, which the constructor left None,
so the url text is http://127.0.0.1:None.  _connect_interface (decorated with
wait_until_finished at 60 s, throw_exception true) then tries to create a tab
through that url: requests.put on a url whose port text is None raises
InvalidURL, a RequestException, which _create_tab converts into
ChromeException — an exception the except tuple of _connect_interface does
not catch, so every attempt raises, and the decorator finally raises
TimeoutError, which propagates out of start() without any teardown.  The
teardown branch (close the browser and reset the handle to None) runs only
when _connect_interface returns False. -/

/-- Environment of a session start. -/
structure RemoteEnv where
  benv : BrowserEnv
  chrome_executable_path : Option String
  newTabOk : Nat → Nat → Bool
  wsOk : Nat → Nat → Bool
  setupOk : Bool

/-- State of a ChromeRemote session.  dev_url carries, when set, the port
component of the formed url (none when the text None was interpolated). -/
structure RemoteState where
  chrome_browser : Option BrowserState
  dev_url : Option (Option Nat)
  tab_started : Bool
  monitorInstalled : Bool
  deriving DecidableEq, Repr

/-- The session as the ChromeRemote constructor leaves it. -/
def initRemoteState : RemoteState :=
  { chrome_browser := none, dev_url := none, tab_started := false,
    monitorInstalled := false }

/-- The text of the dev url formed by string interpolation of the port. -/
def devUrlString : Option Nat → String
  | some p => "http://127.0.0.1:" ++ toString p
  | none => "http://127.0.0.1:None"

/-- A session counts as Connected once its tab is started and the monitor is
installed. -/
def sessionConnected (s : RemoteState) : Bool := s.tab_started && s.monitorInstalled

/-- One attempt of _connect_interface: an unset dev url returns False; a url
whose port text is None makes requests.put raise InvalidURL, converted by
_create_tab into ChromeException, which escapes the except tuple; with a
numeric port the attempt returns False on a caught transport error of the
tuple, True on success, and raises ChromeException when the tab creation
request fails. -/
def connectAttempt (env : RemoteEnv) (dev_url : Option (Option Nat)) (i : Nat) :
    Except PyErr Bool :=
  match dev_url with
  | none => Except.ok false
  | some none => Except.error (PyErr.chromeExc "Could not create new tab: invalid URL")
  | some (some p) =>
    if env.newTabOk p i then
      (if env.wsOk p i then Except.ok true else Except.ok false)
    else Except.error (PyErr.chromeExc "Could not create new tab: request failed")

/-- Embedding of ChromeRemote.start. -/
def remoteStart (env : RemoteEnv) (s : RemoteState) : Except PyErr Unit × RemoteState :=
  if s.chrome_browser.isSome then (Except.ok (), s)
  else
    match browserInit env.benv env.chrome_executable_path with
    | .error e => (.error e, s)
    | .ok b =>
      let s1 : RemoteState := { s with chrome_browser := some b,
                                       dev_url := some b.remote_port }
      match wait_until_finished (some 60) true "_connect_interface"
          (connectAttempt env (some b.remote_port)) with
      | .error e => (.error e, s1)
      | .ok v =>
        match v with
        | some true =>
          let s2 : RemoteState := { s1 with tab_started := true }
          if env.setupOk then (.ok (), { s2 with monitorInstalled := true })
          else (.error (.chromeExc "Unexpected error during tab setup"), s2)
        | _ =>
          (.ok (), { s1 with chrome_browser := none })

lemma remoteStart_fresh (env : RemoteEnv)
    (hexec : env.chrome_executable_path.isSome = true ∨ env.benv.execFound = true) :
    remoteStart env initRemoteState
      = (Except.error (PyErr.timeoutError (timeoutMessage "_connect_interface" 60)),
         { chrome_browser := some initBrowserState, dev_url := some none,
           tab_started := false, monitorInstalled := false }) := by
  have hinit : browserInit env.benv env.chrome_executable_path = Except.ok initBrowserState := by
    rcases hexec with h | h
    · simp [browserInit, h]
    · simp [browserInit, h]
  have hatt : ∀ i, ∃ e, connectAttempt env (some (none : Option Nat)) i = Except.error e :=
    fun i => ⟨PyErr.chromeExc "Could not create new tab: invalid URL", rfl⟩
  have hnone : wufLoop (connectAttempt env (some none)) 0 (wufAttempts 60) = none :=
    wufLoop_all_error _ (wufAttempts 60) 0 (fun i _ _ => hatt i)
  have hwuf : wait_until_finished (some 60) true "_connect_interface"
      (connectAttempt env (some none))
        = Except.error (PyErr.timeoutError (timeoutMessage "_connect_interface" 60)) := by
    simp [wait_until_finished, hnone]
  simp [remoteStart, hinit, initRemoteState, initBrowserState] at *
  simp [hwuf]

/-- Claim C5: for every session configuration whose executable lookup
succeeds, ChromeRemote.start constructs a browser handle but never spawns a
browser process (the handle start method is never invoked, so everSpawned
stays false); the dev url is formed while remote_port is still None, giving
the text http://127.0.0.1:None, the connection phase cannot succeed, and the
session never reaches the Connected state. -/
theorem remote_start_never_spawns (env : RemoteEnv)
    (hexec : env.chrome_executable_path.isSome = true ∨ env.benv.execFound = true) :
    (remoteStart env initRemoteState).2.dev_url = some none ∧
    devUrlString none = "http://127.0.0.1:None" ∧
    (∀ b, (remoteStart env initRemoteState).2.chrome_browser = some b →
      b.everSpawned = false) ∧
    sessionConnected (remoteStart env initRemoteState).2 = false ∧
    (remoteStart env initRemoteState).1
      = Except.error (PyErr.timeoutError (timeoutMessage "_connect_interface" 60)) := by
  rw [remoteStart_fresh env hexec]
  refine ⟨rfl, rfl, ?_, rfl, rfl⟩
  intro b hb
  simp at hb
  rw [← hb]
  rfl

/-- Witness for claim C5: a configuration whose discovery finds an
executable. -/
def remoteEnvEx : RemoteEnv :=
  { benv := { execFound := true, spawnOk := true, exitedEarly := false,
              poll := fun _ => false },
    chrome_executable_path := none,
    newTabOk := fun _ _ => true, wsOk := fun _ _ => true, setupOk := true }

theorem remote_start_never_spawns_witness :
    (remoteStart remoteEnvEx initRemoteState).2.dev_url = some none ∧
    sessionConnected (remoteStart remoteEnvEx initRemoteState).2 = false :=
  ⟨(remote_start_never_spawns remoteEnvEx (Or.inr rfl)).1,
   (remote_start_never_spawns remoteEnvEx (Or.inr rfl)).2.2.2.1⟩

/-- Counterexample to claim C4 as stated: a concrete failing run of start()
(the connect phase raises, surfacing as TimeoutError) after which the browser
handle is not reset to None, so the failure did not tear down the
partially-created resources and the session is not left Unstarted. -/
theorem remote_start_teardown_cex :
    (remoteStart remoteEnvEx initRemoteState).1
      = Except.error (PyErr.timeoutError (timeoutMessage "_connect_interface" 60)) ∧
    (remoteStart remoteEnvEx initRemoteState).2.chrome_browser ≠ none := by
  rw [remoteStart_fresh remoteEnvEx (Or.inr rfl)]
  exact ⟨rfl, by simp⟩

/-- Claim C4 amended: the teardown branch of start() (close the browser and
reset the handle to None) runs only when _connect_interface returns False; on
a fresh session with a discoverable executable the connect attempts always
raise ChromeException (converted from the invalid port-None url), so start()
always fails with the TimeoutError of the 60 s retry budget, the browser
handle stays set, and a subsequent start() returns at once as a no-op instead
of retrying. -/
theorem remote_start_failure_keeps_handle (env : RemoteEnv)
    (hexec : env.chrome_executable_path.isSome = true ∨ env.benv.execFound = true) :
    (remoteStart env initRemoteState).1
      = Except.error (PyErr.timeoutError (timeoutMessage "_connect_interface" 60)) ∧
    (remoteStart env initRemoteState).2.chrome_browser.isSome = true ∧
    remoteStart env (remoteStart env initRemoteState).2
      = (Except.ok (), (remoteStart env initRemoteState).2) := by
  rw [remoteStart_fresh env hexec]
  refine ⟨rfl, rfl, ?_⟩
  rfl

/-- Witness for the amended claim C4. -/
theorem remote_start_failure_keeps_handle_witness :
    (remoteStart remoteEnvEx initRemoteState).1
      = Except.error (PyErr.timeoutError (timeoutMessage "_connect_interface" 60)) ∧
    remoteStart remoteEnvEx (remoteStart remoteEnvEx initRemoteState).2
      = (Except.ok (), (remoteStart remoteEnvEx initRemoteState).2) :=
  ⟨(remote_start_failure_keeps_handle remoteEnvEx (Or.inr rfl)).1,
   (remote_start_failure_keeps_handle remoteEnvEx (Or.inr rfl)).2.2⟩
